import Mathlib

/-!
Shallow embedding of the Spotify EVAL (Extract → Validate → Aggregate → Load)
pipeline, translated from the repository sources:

* `src/data_processing.py`            — `Data_Quality`, `Transform_df`
* `src/Dags/spotify_etl.py`           — `return_dataframe`, `data_quality`, `transform_df`, `spotify_etl`
* `src/spotify_data_extractor.py`     — `get_recently_played_tracks`
* `src/load_music_data_to_postgres.py`— `load_data_to_db` and the `__main__` driver
* `src/Dags/spotify_etl_dag.py`       — `etl_process`

Pandas `DataFrame`s of the four columns `song_name, artist_name, played_at,
timestamp` are modelled as lists of `RawEvent`; pandas nulls (`NaN`/`None`)
are modelled as `Option.none`, so a present (possibly empty) string is
`some s`.  Python exceptions are modelled with explicit outcome types.
-/

deriving instance DecidableEq for Except

namespace SpotifyPipeline

/-- One row of the extracted DataFrame (columns of `return_dataframe` /
`get_recently_played_tracks`).  `none` models a pandas null. -/
structure RawEvent where
  song_name : Option String
  artist_name : Option String
  played_at : Option String
  timestamp : Option String
deriving DecidableEq, Repr

/-- Result of the quality gate `Data_Quality` (`data_processing.py` lines 6–31,
identical logic to `data_quality` in `spotify_etl.py` lines 106–133):
`empty` models the `return False` branch on an empty DataFrame,
`invalid` models a raised exception, `valid` models `return True`. -/
inductive QualityOutcome where
  | empty
  | invalid (msg : String)
  | valid
deriving DecidableEq, Repr

/-- `df.isnull().values.any()` restricted to one row: some column is null.
Note pandas `isnull` does not flag empty strings, only `NaN`/`None`. -/
def hasNullField (e : RawEvent) : Bool :=
  e.song_name.isNone || e.artist_name.isNone ||
    e.played_at.isNone || e.timestamp.isNone

/-- `Data_Quality(load_df)` from `data_processing.py` lines 19–31:
empty frame → `return False`; duplicate `played_at` →
`raise Exception("Primary Key Exception, ...")`; any null value →
`raise Exception("Null values found")`; otherwise `return True`. -/
def Data_Quality (events : List RawEvent) : QualityOutcome :=
  if events.isEmpty then .empty
  else if ¬ (events.map (·.played_at)).Nodup then
    .invalid "Primary Key Exception, Data Might Contain duplicates"
  else if events.any hasNullField then .invalid "Null values found"
  else .valid

/-- The pandas groupby key of one row: `(timestamp, artist_name)`.
Pandas `groupby` drops rows whose key contains a null (`dropna=True`),
hence the `Option` result. -/
def keyOf (e : RawEvent) : Option (String × String) :=
  match e.timestamp, e.artist_name with
  | some t, some a => some (t, a)
  | _, _ => none

/-- Executable lexicographic strict comparison of char lists, the code-point
order Python uses to compare the string group keys.  (A structural Bool
version is used so that concrete runs reduce inside the kernel; it is proved
equivalent to Mathlib's lexicographic list order below.) -/
def listLtb : List Char → List Char → Bool
  | _, [] => false
  | [], _ :: _ => true
  | a :: as, b :: bs => if a = b then listLtb as bs else decide (a < b)

/-- Executable strict comparison of strings (code-point lexicographic). -/
def strLtb (s1 s2 : String) : Bool := listLtb s1.data s2.data

/-- Executable non-strict comparison of strings. -/
def strLeb (s1 s2 : String) : Bool := ! strLtb s2 s1

theorem listLtb_iff : ∀ {l1 l2 : List Char},
    listLtb l1 l2 = true ↔ List.Lex (· < ·) l1 l2
  | _, [] => by
    simp only [listLtb]
    exact iff_of_false (by simp) (List.Lex.not_nil_right _ _)
  | [], _ :: _ => iff_of_true rfl List.Lex.nil
  | a :: as, b :: bs => by
    by_cases h : a = b
    · subst h
      simp only [listLtb, if_pos rfl]
      exact listLtb_iff.trans List.Lex.cons_iff.symm
    · simp only [listLtb, if_neg h, decide_eq_true_eq]
      constructor
      · exact fun hab => List.Lex.rel hab
      · intro hlex
        rcases hlex with _ | hab | hab
        · exact absurd rfl h
        · exact hab

theorem strLtb_iff {s1 s2 : String} : strLtb s1 s2 = true ↔ s1 < s2 := by
  rw [String.lt_iff_toList_lt]
  exact listLtb_iff

theorem strLeb_iff {s1 s2 : String} : strLeb s1 s2 = true ↔ s1 ≤ s2 := by
  have h := @strLtb_iff s2 s1
  rw [← not_lt, ← h]
  unfold strLeb
  cases strLtb s2 s1 <;> simp

/-- Ascending order on groupby keys, executable form: pandas sorts the grouped
output ascending by the key tuple `(timestamp, artist_name)` (`sort=True`),
comparing the strings lexicographically. -/
def keyLEb (k1 k2 : String × String) : Bool :=
  if k1.1 = k2.1 then strLeb k1.2 k2.2 else strLtb k1.1 k2.1

/-- The key order as a relation, for use with `List.insertionSort`. -/
def keyLE (k1 k2 : String × String) : Prop := keyLEb k1 k2 = true

instance : DecidableRel keyLE := fun k1 k2 => by
  unfold keyLE; infer_instance

theorem keyLE_iff {k1 k2 : String × String} :
    keyLE k1 k2 ↔ k1.1 < k2.1 ∨ (k1.1 = k2.1 ∧ k1.2 ≤ k2.2) := by
  unfold keyLE keyLEb
  by_cases h : k1.1 = k2.1
  · rw [if_pos h, strLeb_iff]
    constructor
    · exact fun hle => Or.inr ⟨h, hle⟩
    · rintro (hlt | ⟨-, hle⟩)
      · exact absurd hlt (h ▸ lt_irrefl _)
      · exact hle
  · rw [if_neg h, strLtb_iff]
    constructor
    · exact fun hlt => Or.inl hlt
    · rintro (hlt | ⟨heq, -⟩)
      · exact hlt
      · exact absurd heq h

instance : IsTotal (String × String) keyLE := by
  constructor
  intro a b
  rw [keyLE_iff, keyLE_iff]
  rcases lt_trichotomy a.1 b.1 with h | h | h
  · exact Or.inl (Or.inl h)
  · rcases le_total a.2 b.2 with h2 | h2
    · exact Or.inl (Or.inr ⟨h, h2⟩)
    · exact Or.inr (Or.inr ⟨h.symm, h2⟩)
  · exact Or.inr (Or.inl h)

instance : IsTrans (String × String) keyLE := by
  constructor
  intro a b c hab hbc
  rw [keyLE_iff] at hab hbc ⊢
  rcases hab with h1 | ⟨h1, h1'⟩
  · rcases hbc with h2 | ⟨h2, _⟩
    · exact Or.inl (h1.trans h2)
    · exact Or.inl (h2 ▸ h1)
  · rcases hbc with h2 | ⟨h2, h2'⟩
    · exact Or.inl (h1 ▸ h2)
    · exact Or.inr ⟨h1.trans h2, h1'.trans h2'⟩

/-- The distinct groupby keys of a batch, in the ascending key order in which
pandas emits the grouped rows. -/
def groupKeys (events : List RawEvent) : List (String × String) :=
  List.insertionSort keyLE (events.filterMap keyOf).dedup

/-- Size of one group: what `groupby([...]).size()` reports for key `k`
(every row of the group, nulls in non-key columns included). -/
def groupSize (events : List RawEvent) (k : String × String) : Nat :=
  (events.filter (fun e => keyOf e == some k)).length

/-- What `groupby([...]).count()` reports for key `k` in the `played_at`
column: only non-null `played_at` entries of the group are counted. -/
def countNonNullPlayedAt (events : List RawEvent) (k : String × String) : Nat :=
  (events.filter (fun e => keyOf e == some k && e.played_at.isSome)).length

/-- One output row of the aggregation, columns
`[['ID', 'timestamp', 'artist_name', 'count']]`. -/
structure AggRecord where
  ID : String
  timestamp : String
  artist_name : String
  count : Nat
deriving DecidableEq, Repr

/-- `Transform_df(load_df)` from `data_processing.py` lines 35–60:
`groupby(['timestamp','artist_name'], as_index=False).count()`, rename the
counted `played_at` column to `count`, set
`ID = timestamp.astype(str) + "-" + artist_name` (identity cast on string
timestamps), and keep `['ID','timestamp','artist_name','count']`. -/
def Transform_df (events : List RawEvent) : List AggRecord :=
  (groupKeys events).map (fun k =>
    { ID := k.1 ++ "-" ++ k.2, timestamp := k.1, artist_name := k.2,
      count := countNonNullPlayedAt events k })

/-- `transform_df(df)` from `spotify_etl.py` lines 137–164:
`groupby(['timestamp','artist_name'], as_index=False).size()`, rename `size`
to `count`, set `ID = timestamp + '-' + artist_name`, and keep
`['ID','timestamp','artist_name','count']`. -/
def transform_df (events : List RawEvent) : List AggRecord :=
  (groupKeys events).map (fun k =>
    { ID := k.1 ++ "-" ++ k.2, timestamp := k.1, artist_name := k.2,
      count := groupSize events k })

/-- Specification-side count: the exact number of events of the batch whose
`(timestamp, artist_name)` pair is `(d, a)`. -/
def numWithPair (events : List RawEvent) (d a : String) : Nat :=
  (events.filter (fun e => e.timestamp == some d && e.artist_name == some a)).length

/-! ### Extraction -/

/-- One raw item of the `items` array of the API response.  Each field is the
result of the chained dictionary accesses the code performs; `none` models a
`KeyError` somewhere along that access path:
`track_name` stands for `item["track"]["name"]`,
`album_artist0_name` for `item["track"]["album"]["artists"][0]["name"]`,
`played_at` for `item["played_at"]`. -/
structure RawItem where
  track_name : Option String
  album_artist0_name : Option String
  played_at : Option String
deriving DecidableEq, Repr

/-- A parsed API response body: `items = none` models a JSON object without
the top-level `items` key. -/
structure ApiResponse where
  items : Option (List RawItem)
deriving DecidableEq, Repr

/-- Python `played_at[:10]`: the first 10 characters. -/
def strTake10 (s : String) : String := ⟨s.data.take 10⟩

/-- The four parallel column lists `song_names`, `artist_names`,
`played_at_list`, `timestamps` built by the extraction loop of
`return_dataframe` (spotify_etl.py lines 78–91). -/
structure ExtractState where
  song_names : List String
  artist_names : List String
  played_at_list : List String
  timestamps : List String
deriving DecidableEq, Repr

/-- One iteration of the loop in `return_dataframe` (spotify_etl.py lines
83–91).  The appends run in source order inside `try:`; a missing key raises
`KeyError` at the corresponding access, the `except KeyError` logs a warning,
and every append already executed stays — so an item whose *first* access
fails is skipped cleanly, while a later failure leaves the lists ragged. -/
def processItem (st : ExtractState) (it : RawItem) : ExtractState :=
  match it.track_name with
  | none => st
  | some sn =>
    let st1 := { st with song_names := st.song_names ++ [sn] }
    match it.album_artist0_name with
    | none => st1
    | some an =>
      let st2 := { st1 with artist_names := st1.artist_names ++ [an] }
      match it.played_at with
      | none => st2
      | some p =>
        { st2 with
          played_at_list := st2.played_at_list ++ [p],
          timestamps := st2.timestamps ++ [strTake10 p] }

/-- Zip the four column lists back into rows, as `pd.DataFrame({...})` does
once all columns have the same length. -/
def zipColumns : List String → List String → List String → List String →
    List RawEvent
  | s :: ss, a :: as, p :: ps, t :: ts =>
    ⟨some s, some a, some p, some t⟩ :: zipColumns ss as ps ts
  | _, _, _, _ => []

/-- `return_dataframe()` (spotify_etl.py lines 35–102), from the decoded
response body on: `data.get("items", [])` defaults to an empty list when the
`items` key is absent; each item is processed by the tolerant loop; finally
`pd.DataFrame({...})` (line 94, outside the per-item `try`) raises
`ValueError` when the four column lists have unequal lengths. -/
def return_dataframe (resp : ApiResponse) : Except String (List RawEvent) :=
  let st := (resp.items.getD []).foldl processItem ⟨[], [], [], []⟩
  if st.artist_names.length = st.song_names.length ∧
      st.played_at_list.length = st.song_names.length ∧
      st.timestamps.length = st.song_names.length then
    .ok (zipColumns st.song_names st.artist_names st.played_at_list st.timestamps)
  else
    .error "All arrays must be of the same length"

/-- One item as read by `get_recently_played_tracks` (spotify_data_extractor.py
lines 61–68): there is no per-item exception handling, so the first missing
key aborts the whole call. -/
def parseItemStrict (it : RawItem) : Except String RawEvent :=
  match it.track_name with
  | none => .error "KeyError: track.name"
  | some sn =>
    match it.album_artist0_name with
    | none => .error "KeyError: track.album.artists"
    | some an =>
      match it.played_at with
      | none => .error "KeyError: played_at"
      | some p => .ok ⟨some sn, some an, some p, some (strTake10 p)⟩

/-- Sequential strict parse of all items: stops at the first failure. -/
def parseItemsStrict : List RawItem → Except String (List RawEvent)
  | [] => .ok []
  | it :: rest =>
    match parseItemStrict it with
    | .error e => .error e
    | .ok ev =>
      match parseItemsStrict rest with
      | .error e => .error e
      | .ok evs => .ok (ev :: evs)

/-- `get_recently_played_tracks` (spotify_data_extractor.py lines 17–84), from
the decoded response body on: a missing top-level `items` key raises
`ValueError` (re-raised as `RuntimeError` by the catch-all), and any missing
key inside an item raises `KeyError` for the whole call. -/
def get_recently_played_tracks (resp : ApiResponse) : Except String (List RawEvent) :=
  match resp.items with
  | none => .error "Otvet API ne soderzhit kliucha items"
  | some items => parseItemsStrict items

/-! ### Loading and run drivers -/

/-- Whether the relational store is reachable and accepting writes: under
`rejects msg` every `to_sql` call raises an exception carrying `msg`. -/
inductive StoreBehavior where
  | accepts
  | rejects (msg : String)
deriving DecidableEq, Repr

/-- `df.to_sql(..., if_exists="replace")` from the DAG task `etl_process`
(spotify_etl_dag.py lines 82–88, commented `# Заменяем таблицу целиком`):
the existing `my_played_tracks` table is dropped and only the current frame
remains. -/
def to_sql_replace (_tbl df : List RawEvent) : List RawEvent := df

/-- `df.to_sql(..., if_exists="append")` into `my_played_tracks`, whose DDL
declares `PRIMARY KEY (played_at)` (load_music_data_to_postgres.py lines
44–50): the insert is rejected as a whole on any duplicate key, otherwise the
rows are appended after the existing ones. -/
def to_sql_append_pk (tbl df : List RawEvent) : Except String (List RawEvent) :=
  if (df.map (·.played_at)).Nodup ∧
      ∀ k ∈ df.map (·.played_at), k ∉ tbl.map (·.played_at) then
    .ok (tbl ++ df)
  else
    .error "duplicate key value violates unique constraint"

/-- `transformed_df.to_sql(..., if_exists="append")` into `fav_artist`, whose
DDL declares `PRIMARY KEY (ID)` (load_music_data_to_postgres.py lines
57–65). -/
def to_sql_append_pk_agg (tbl df : List AggRecord) :
    Except String (List AggRecord) :=
  if (df.map (·.ID)).Nodup ∧ ∀ k ∈ df.map (·.ID), k ∉ tbl.map (·.ID) then
    .ok (tbl ++ df)
  else
    .error "duplicate key value violates unique constraint"

/-- `load_data_to_db` (load_music_data_to_postgres.py lines 70–99): each of
the two `to_sql` appends sits in its own `try/except` that merely prints the
failure, so a rejected insert leaves that table unchanged and the function
always returns normally — no exception ever escapes it. -/
def load_data_to_db (store : StoreBehavior) (eventsTbl : List RawEvent)
    (aggTbl : List AggRecord) (load_df : List RawEvent)
    (transformed_df : List AggRecord) : List RawEvent × List AggRecord :=
  let newEvents :=
    match store with
    | .rejects _ => eventsTbl
    | .accepts =>
      match to_sql_append_pk eventsTbl load_df with
      | .ok t => t
      | .error _ => eventsTbl
  let newAgg :=
    match store with
    | .rejects _ => aggTbl
    | .accepts =>
      match to_sql_append_pk_agg aggTbl transformed_df with
      | .ok t => t
      | .error _ => aggTbl
  (newEvents, newAgg)

/-- How a pipeline run ended: `failure` models an uncaught (or top-level
reported) exception, `success` a run that finished normally reporting
success. -/
inductive RunOutcome where
  | success
  | failure (msg : String)
deriving DecidableEq, Repr

/-- Observable trace of one run: whether the aggregation step
(`transform_df` / `Transform_df`) ran, whether any load was attempted, and
the reported outcome. -/
structure RunTrace where
  transformInvoked : Bool
  loadInvoked : Bool
  outcome : RunOutcome
deriving DecidableEq, Repr

/-- The DAG task `etl_process` (spotify_etl_dag.py lines 47–92) composed with
`spotify_etl` (spotify_etl.py lines 168–200).  `extracted` is the outcome of
`return_dataframe`.  `spotify_etl` re-raises extraction and quality errors,
returns an empty frame when `data_quality` returns `False`, and otherwise
runs `transform_df` and hands the raw frame back; `etl_process` skips the
load when the frame is empty (task succeeds) and otherwise writes the raw
frame with `if_exists="replace"`, re-raising a load failure. -/
def etl_process : Except String (List RawEvent) → StoreBehavior →
    List RawEvent → RunTrace × List RawEvent
  | .error m, _, tbl => (⟨false, false, .failure m⟩, tbl)
  | .ok df, store, tbl =>
    match Data_Quality df, store with
    | .empty, _ => (⟨false, false, .success⟩, tbl)
    | .invalid m, _ => (⟨false, false, .failure m⟩, tbl)
    | .valid, .accepts => (⟨true, true, .success⟩, to_sql_replace tbl df)
    | .valid, .rejects m => (⟨true, true, .failure m⟩, tbl)

/-- The standalone driver (`__main__` of load_music_data_to_postgres.py lines
103–130): when `Data_Quality` returns `False` (empty frame) the driver itself
raises `ValueError`; every exception is caught by the outer `except`, which
prints the error instead of the success message; when the frame is valid,
`Transform_df` runs and `load_data_to_db` swallows any load failure, so the
driver prints the success message regardless of the store. -/
def standalone_main : Except String (List RawEvent) → StoreBehavior →
    List RawEvent → List AggRecord →
    RunTrace × List RawEvent × List AggRecord
  | .error m, _, eventsTbl, aggTbl =>
    (⟨false, false, .failure m⟩, eventsTbl, aggTbl)
  | .ok df, store, eventsTbl, aggTbl =>
    match Data_Quality df with
    | .empty =>
      (⟨false, false, .failure "Proverka kachestva dannykh ne proidena."⟩,
        eventsTbl, aggTbl)
    | .invalid m => (⟨false, false, .failure m⟩, eventsTbl, aggTbl)
    | .valid =>
      let loaded := load_data_to_db store eventsTbl aggTbl df (Transform_df df)
      (⟨true, true, .success⟩, loaded.1, loaded.2)

/-! ### Concrete sample data (used by witnesses and counterexamples) -/

/-- Event 1 of the worked example of spec §8. -/
def evA1 : RawEvent :=
  ⟨some "song1", some "A", some "2024-01-01T08:00:00Z", some "2024-01-01"⟩

/-- Event 2 of the worked example of spec §8. -/
def evA2 : RawEvent :=
  ⟨some "song2", some "A", some "2024-01-01T09:00:00Z", some "2024-01-01"⟩

/-- Event 3 of the worked example of spec §8. -/
def evB1 : RawEvent :=
  ⟨some "song3", some "B", some "2024-01-01T10:00:00Z", some "2024-01-01"⟩

/-- The worked-example batch of spec §8. -/
def exBatch : List RawEvent := [evA1, evA2, evB1]

/-! ### Helper lemmas about the quality gate -/

theorem Data_Quality_eq_valid_iff (events : List RawEvent) :
    Data_Quality events = .valid ↔
      events ≠ [] ∧ (events.map (·.played_at)).Nodup ∧
        ∀ e ∈ events, hasNullField e = false := by
  unfold Data_Quality
  by_cases h1 : events.isEmpty
  · rw [if_pos h1]
    obtain rfl := List.isEmpty_iff.mp h1
    simp
  · rw [if_neg h1]
    have hne : events ≠ [] := by
      intro hnil; rw [hnil] at h1; exact h1 rfl
    by_cases h2 : (events.map (·.played_at)).Nodup
    · rw [if_neg (not_not.mpr h2)]
      by_cases h3 : events.any hasNullField = true
      · rw [if_pos h3]
        constructor
        · intro hcon; cases hcon
        · rintro ⟨-, -, hall⟩
          obtain ⟨e, he, hnf⟩ := List.any_eq_true.mp h3
          rw [hall e he] at hnf
          cases hnf
      · rw [if_neg h3]
        constructor
        · intro _
          refine ⟨hne, h2, fun e he => ?_⟩
          cases hx : hasNullField e
          · rfl
          · exact absurd (List.any_eq_true.mpr ⟨e, he, hx⟩) h3
        · intro _; rfl
    · rw [if_pos h2]
      constructor
      · intro hcon; cases hcon
      · rintro ⟨-, hnd, -⟩; exact absurd hnd h2

theorem valid_fields {events : List RawEvent} {e : RawEvent}
    (hv : Data_Quality events = .valid) (he : e ∈ events) :
    ∃ s a p t, e = ⟨some s, some a, some p, some t⟩ := by
  have h := ((Data_Quality_eq_valid_iff events).mp hv).2.2 e he
  rcases e with ⟨_ | s, _ | a, _ | p, _ | t⟩ <;>
    simp [hasNullField] at h ⊢

/-! ### Helper lemmas about the group keys -/

theorem mem_groupKeys {events : List RawEvent} {k : String × String} :
    k ∈ groupKeys events ↔ ∃ e ∈ events, keyOf e = some k := by
  unfold groupKeys
  rw [(List.perm_insertionSort keyLE _).mem_iff, List.mem_dedup,
    List.mem_filterMap]

theorem nodup_groupKeys (events : List RawEvent) : (groupKeys events).Nodup :=
  ((List.perm_insertionSort keyLE _).nodup_iff).mpr (List.nodup_dedup _)

theorem sorted_groupKeys (events : List RawEvent) :
    List.Sorted keyLE (groupKeys events) :=
  List.sorted_insertionSort keyLE _

theorem filter_map_comm {α β : Type} (f : α → β) (p : β → Bool) (l : List α) :
    (l.map f).filter p = (l.filter (fun x => p (f x))).map f := by
  induction l with
  | nil => rfl
  | cons a t ih =>
    rw [List.map_cons, List.filter_cons, List.filter_cons]
    cases h : p (f a) <;> simp [h, ih]

theorem filter_pair_of_nodup (d a : String) (l : List (String × String))
    (hl : l.Nodup) :
    l.filter (fun k => k.1 == d && k.2 == a) =
      if (d, a) ∈ l then [(d, a)] else [] := by
  induction l with
  | nil => simp
  | cons x t ih =>
    rcases List.nodup_cons.mp hl with ⟨hx, ht⟩
    have hpred : ∀ y : String × String,
        (y.1 == d && y.2 == a) = true ↔ y = (d, a) := by
      intro y; cases y; simp [Prod.ext_iff]
    rw [List.filter_cons]
    by_cases hxk : x = (d, a)
    · subst hxk
      rw [if_pos ((hpred (d, a)).mpr rfl),
        if_pos (List.mem_cons_self (d, a) t)]
      have : t.filter (fun k => k.1 == d && k.2 == a) = [] := by
        rw [List.filter_eq_nil_iff]
        intro y hy hc
        exact hx ((hpred y).mp hc ▸ hy)
      rw [this]
    · have hfx : (x.1 == d && x.2 == a) = false := by
        cases hc : (x.1 == d && x.2 == a)
        · rfl
        · exact absurd ((hpred x).mp hc) hxk
      rw [if_neg (by rw [hfx]; exact Bool.false_ne_true), ih ht]
      have : ((d, a) ∈ x :: t) ↔ ((d, a) ∈ t) := by
        rw [List.mem_cons]
        exact or_iff_right (fun hcon => hxk hcon.symm)
      rw [if_congr this rfl rfl]

theorem mem_groupKeys_iff_pos {events : List RawEvent}
    (h : Data_Quality events = .valid) (d a : String) :
    (d, a) ∈ groupKeys events ↔ 0 < numWithPair events d a := by
  rw [mem_groupKeys]
  unfold numWithPair
  rw [← List.countP_eq_length_filter, List.countP_pos_iff]
  constructor
  · rintro ⟨e, he, hk⟩
    obtain ⟨s, a', p, t, rfl⟩ := valid_fields h he
    simp only [keyOf, Option.some.injEq, Prod.mk.injEq] at hk
    exact ⟨_, he, by simp [hk.1, hk.2]⟩
  · rintro ⟨e, he, hp⟩
    obtain ⟨s, a', p, t, rfl⟩ := valid_fields h he
    simp only [Bool.and_eq_true, beq_iff_eq, Option.some.injEq] at hp
    exact ⟨_, he, by simp [keyOf, hp.1, hp.2]⟩

theorem countNonNull_eq_numWithPair {events : List RawEvent}
    (h : Data_Quality events = .valid) (d a : String) :
    countNonNullPlayedAt events (d, a) = numWithPair events d a := by
  unfold countNonNullPlayedAt numWithPair
  congr 1
  apply List.filter_congr
  intro e he
  obtain ⟨s, a', p, t, rfl⟩ := valid_fields h he
  rw [Bool.eq_iff_iff]
  simp [keyOf, Prod.ext_iff, and_comm]

/-! ### C1: aggregation counts are exact -/

/-- C1.  For every validated (non-empty, duplicate-free, null-free) batch,
`Transform_df` outputs exactly one record per `(date, artist_name)` pair that
occurs in the batch — and none for pairs that do not occur — and that
record's `count` is the exact number of events sharing the pair. -/
theorem transform_count_exact (events : List RawEvent)
    (h : Data_Quality events = .valid) (d a : String) :
    (Transform_df events).filter
        (fun r => r.timestamp == d && r.artist_name == a) =
      if 0 < numWithPair events d a then
        [{ ID := d ++ "-" ++ a, timestamp := d, artist_name := a,
           count := numWithPair events d a }]
      else [] := by
  unfold Transform_df
  rw [filter_map_comm]
  have hpred : (groupKeys events).filter
      (fun k => ((⟨k.1 ++ "-" ++ k.2, k.1, k.2,
        countNonNullPlayedAt events k⟩ : AggRecord).timestamp == d &&
        (⟨k.1 ++ "-" ++ k.2, k.1, k.2,
          countNonNullPlayedAt events k⟩ : AggRecord).artist_name == a)) =
      (groupKeys events).filter (fun k => k.1 == d && k.2 == a) :=
    List.filter_congr (fun _ _ => rfl)
  rw [hpred, filter_pair_of_nodup d a _ (nodup_groupKeys events),
    apply_ite (List.map (fun k : String × String =>
      ({ ID := k.1 ++ "-" ++ k.2, timestamp := k.1, artist_name := k.2,
         count := countNonNullPlayedAt events k } : AggRecord))),
    if_congr (mem_groupKeys_iff_pos h d a) rfl rfl]
  simp only [List.map_cons, List.map_nil]
  rw [countNonNull_eq_numWithPair h d a]

/-- C1 witness: the worked example of spec §8 at the pair
`("2024-01-01", "A")`. -/
theorem transform_count_exact_witness :
    (Transform_df exBatch).filter
        (fun r => r.timestamp == "2024-01-01" && r.artist_name == "A") =
      if 0 < numWithPair exBatch "2024-01-01" "A" then
        [{ ID := "2024-01-01" ++ "-" ++ "A", timestamp := "2024-01-01",
           artist_name := "A",
           count := numWithPair exBatch "2024-01-01" "A" }]
      else [] :=
  transform_count_exact exBatch (by decide) "2024-01-01" "A"

/-! ### C10: the two aggregator variants agree on null-free batches -/

/-- C10.  On any batch without null values, `Transform_df` (which counts the
non-null `played_at` entries of each group) and `transform_df` (which takes
each group's size) produce identical record lists. -/
theorem transform_variants_agree (events : List RawEvent)
    (h : ∀ e ∈ events, hasNullField e = false) :
    Transform_df events = transform_df events := by
  unfold Transform_df transform_df
  apply List.map_congr_left
  intro k _
  have hc : countNonNullPlayedAt events k = groupSize events k := by
    unfold countNonNullPlayedAt groupSize
    congr 1
    apply List.filter_congr
    intro e he
    have hnf := h e he
    cases hp : e.played_at with
    | none =>
      unfold hasNullField at hnf
      rw [hp] at hnf
      simp at hnf
    | some p => simp [hp]
  simp only [hc]

/-- C10 witness: both aggregators on the worked-example batch. -/
theorem transform_variants_agree_witness :
    Transform_df exBatch = transform_df exBatch :=
  transform_variants_agree exBatch (by decide)

/-! ### C2: what the quality gate actually rejects -/

/-- Some required field holds the empty string (present but empty). -/
def hasEmptyStringField (e : RawEvent) : Bool :=
  e.song_name == some "" || e.artist_name == some "" ||
    e.played_at == some "" || e.timestamp == some ""

/-- An event whose `song_name` is the empty string but whose fields are all
non-null. -/
def evEmptyName : RawEvent :=
  ⟨some "", some "A", some "2024-01-01T08:00:00Z", some "2024-01-01"⟩

theorem Data_Quality_eq_empty_iff (events : List RawEvent) :
    Data_Quality events = .empty ↔ events = [] := by
  unfold Data_Quality
  by_cases h1 : events.isEmpty
  · rw [if_pos h1]
    simp [List.isEmpty_iff.mp h1]
  · rw [if_neg h1]
    have hne : events ≠ [] := by
      intro hnil; rw [hnil] at h1; exact h1 rfl
    constructor
    · intro hcon
      split_ifs at hcon
    · intro h'; exact absurd h' hne

/-- C2 counterexample: `Data_Quality` accepts a batch containing an
empty-string required field — `df.isnull()` only detects nulls, so no error
is raised, contradicting the claim that an empty required field is
rejected. -/
theorem data_quality_misses_empty_strings :
    hasEmptyStringField evEmptyName = true ∧
      Data_Quality [evEmptyName] = QualityOutcome.valid := by
  exact ⟨rfl, rfl⟩

/-- C2 (amended).  For a non-empty batch, `Data_Quality` raises an error iff
`played_at` is duplicated or some field is null (`NaN`/`None`); empty strings
do not trigger the null check.  Otherwise it returns the batch as valid. -/
theorem data_quality_error_iff (events : List RawEvent) (h : events ≠ []) :
    ((∃ m, Data_Quality events = .invalid m) ↔
      (¬ (events.map (·.played_at)).Nodup ∨ ∃ e ∈ events, hasNullField e = true))
    ∧ (Data_Quality events = .valid ↔
        ((events.map (·.played_at)).Nodup ∧
          ∀ e ∈ events, hasNullField e = false)) := by
  have hvalid := Data_Quality_eq_valid_iff events
  constructor
  · constructor
    · rintro ⟨m, hm⟩
      by_contra hcon
      push_neg at hcon
      obtain ⟨hnd, hnull⟩ := hcon
      have hv : Data_Quality events = .valid := hvalid.mpr ⟨h, hnd,
        fun e he => by
          cases hx : hasNullField e
          · rfl
          · exact absurd hx (hnull e he)⟩
      rw [hv] at hm
      cases hm
    · intro hcase
      rcases hdq : Data_Quality events with _ | m | _
      · exact absurd ((Data_Quality_eq_empty_iff events).mp hdq) h
      · exact ⟨m, rfl⟩
      · have hv := hvalid.mp hdq
        rcases hcase with hdup | ⟨e, he, hnf⟩
        · exact absurd hv.2.1 hdup
        · rw [hv.2.2 e he] at hnf
          cases hnf
  · constructor
    · intro hv
      exact ⟨(hvalid.mp hv).2.1, (hvalid.mp hv).2.2⟩
    · rintro ⟨hnd, hnull⟩
      exact hvalid.mpr ⟨h, hnd, hnull⟩

/-- C2 witness: the amended characterisation at the singleton batch
`[evA1]`. -/
theorem data_quality_error_iff_witness :
    ((∃ m, Data_Quality [evA1] = .invalid m) ↔
      (¬ ([evA1].map (·.played_at)).Nodup ∨
        ∃ e ∈ [evA1], hasNullField e = true))
    ∧ (Data_Quality [evA1] = .valid ↔
        (([evA1].map (·.played_at)).Nodup ∧
          ∀ e ∈ [evA1], hasNullField e = false)) :=
  data_quality_error_iff [evA1] (by decide)

/-! ### C3: the DAG loader replaces the events table -/

/-- C3 (code bug).  Concrete run of the DAG loader: the events table already
holds `evA1`; a later run loading the valid batch `[evB1]` (a different
`played_at` key) ends with a table that no longer contains `evA1`, because
`etl_process` writes with `if_exists="replace"` — prior rows are not
preserved, contradicting the required append/conflict semantics. -/
theorem dag_replace_discards_prior_rows :
    evA1.played_at ≠ evB1.played_at ∧
      Data_Quality [evB1] = QualityOutcome.valid ∧
      (etl_process (Except.ok [evB1]) StoreBehavior.accepts [evA1]).2 = [evB1] ∧
      evA1 ∉ (etl_process (Except.ok [evB1]) StoreBehavior.accepts [evA1]).2 := by
  refine ⟨by decide, by decide, rfl, by decide⟩

/-! ### C4: empty extraction -/

/-- C4 counterexample: the standalone driver
(load_music_data_to_postgres.py `__main__`) raises `ValueError` when
`Data_Quality` returns `False` on an empty batch, and its top-level handler
reports an error — the run does not report success. -/
theorem standalone_empty_reports_error :
    (standalone_main (Except.ok []) StoreBehavior.accepts [] []).1 =
      ⟨false, false,
        RunOutcome.failure "Proverka kachestva dannykh ne proidena."⟩ ∧
      (standalone_main (Except.ok []) StoreBehavior.accepts [] []).1.outcome ≠
        RunOutcome.success := by
  exact ⟨rfl, by decide⟩

/-- C4 (amended).  In the DAG pipeline (`spotify_etl` + `etl_process`) an
extraction yielding zero events makes the quality gate signal `empty`
without raising, the aggregator and loader are never invoked, the events
table is untouched, and the task completes successfully.  The standalone
driver instead converts the empty batch into a reported error. -/
theorem dag_empty_run_succeeds (store : StoreBehavior) (tbl : List RawEvent) :
    Data_Quality [] = QualityOutcome.empty ∧
      etl_process (Except.ok []) store tbl =
        (⟨false, false, RunOutcome.success⟩, tbl) := by
  exact ⟨rfl, rfl⟩

/-! ### C6: missing top-level items key -/

/-- C6 counterexample: `return_dataframe` reads the items with
`data.get("items", [])`, so a response without the `items` key degrades to a
successful empty batch instead of failing the extraction. -/
theorem return_dataframe_missing_items_degrades :
    return_dataframe ⟨none⟩ = Except.ok [] := rfl

/-- C6 (amended).  The standalone extractor `get_recently_played_tracks`
does fail the whole extraction with a batch-level error when the response
lacks the `items` key; the DAG extractor `return_dataframe` instead degrades
to an empty batch. -/
theorem get_recently_played_missing_items_fails (resp : ApiResponse)
    (h : resp.items = none) :
    get_recently_played_tracks resp =
      Except.error "Otvet API ne soderzhit kliucha items" := by
  unfold get_recently_played_tracks
  rw [h]

/-- C6 witness: the itemless response. -/
theorem get_recently_played_missing_items_fails_witness :
    get_recently_played_tracks ⟨none⟩ =
      Except.error "Otvet API ne soderzhit kliucha items" :=
  get_recently_played_missing_items_fails ⟨none⟩ rfl

/-! ### C7: load failures -/

/-- C7 counterexample: with the store rejecting every write, the standalone
driver still reports success — `load_data_to_db` catches and prints each
`to_sql` failure, so the batch-level load error is converted into a
successful run instead of propagating. -/
theorem standalone_swallows_load_failure :
    (standalone_main (Except.ok exBatch)
        (StoreBehavior.rejects "store unavailable") [] []).1 =
      ⟨true, true, RunOutcome.success⟩ := rfl

/-- C7 (amended).  In the DAG pipeline a load failure propagates unmodified:
`etl_process` re-raises the store's error, so the run fails with exactly the
store's message and the table is left unchanged.  In the standalone driver
`load_data_to_db` swallows the failure and the run reports success. -/
theorem dag_load_failure_propagates (df : List RawEvent) (m : String)
    (tbl : List RawEvent) (h : Data_Quality df = QualityOutcome.valid) :
    etl_process (Except.ok df) (StoreBehavior.rejects m) tbl =
      (⟨true, true, RunOutcome.failure m⟩, tbl) := by
  simp only [etl_process]
  rw [h]

/-- C7 witness: a rejecting store on the worked-example batch. -/
theorem dag_load_failure_propagates_witness :
    etl_process (Except.ok exBatch) (StoreBehavior.rejects "store unavailable")
        [] =
      (⟨true, true, RunOutcome.failure "store unavailable"⟩, []) :=
  dag_load_failure_propagates exBatch "store unavailable" [] (by decide)

/-! ### C5: malformed-item tolerance -/

/-- A complete API item. -/
def goodItem : RawItem :=
  ⟨some "song1", some "A", some "2024-01-01T08:00:00Z"⟩

/-- An item that lacks `track.album.artists` but has `track.name` and
`played_at`. -/
def noArtistsItem : RawItem :=
  ⟨some "song2", none, some "2024-01-02T08:00:00Z"⟩

/-- C5 (code bug).  A response whose second item lacks
`track.album.artists`: `return_dataframe` appends the item's `song_name`
before the `KeyError` fires, leaves the four column lists ragged, and the
final `pd.DataFrame` constructor fails — the whole extraction errors instead
of skipping the one malformed item.  The standalone extractor fails outright
on the same input, with no per-item handling at all. -/
theorem extraction_fails_on_missing_artists :
    return_dataframe ⟨some [goodItem, noArtistsItem]⟩ =
      Except.error "All arrays must be of the same length" ∧
      get_recently_played_tracks ⟨some [goodItem, noArtistsItem]⟩ =
        Except.error "KeyError: track.album.artists" := by
  exact ⟨rfl, rfl⟩

/-! ### String lemmas for the id ordering and id injectivity -/

theorem lex_append_of_length_eq : ∀ {l1 l2 : List Char},
    l1.length = l2.length → List.Lex (· < ·) l1 l2 →
    ∀ x y : List Char, List.Lex (· < ·) (l1 ++ x) (l2 ++ y) := by
  intro l1
  induction l1 with
  | nil =>
    intro l2 hlen hlex x y
    cases l2 with
    | nil => exact absurd hlex (List.Lex.not_nil_right _ _)
    | cons b t2 => simp at hlen
  | cons a t ih =>
    intro l2 hlen hlex x y
    cases l2 with
    | nil => simp at hlen
    | cons b t2 =>
      cases hlex with
      | cons h =>
        exact List.Lex.cons (ih (by simpa using hlen) h x y)
      | rel h => exact List.Lex.rel h

theorem lex_append_left_iff {s t1 t2 : List Char} :
    List.Lex (· < ·) (s ++ t1) (s ++ t2) ↔ List.Lex (· < ·) t1 t2 := by
  induction s with
  | nil => simp
  | cons a s ih =>
    rw [List.cons_append, List.cons_append, List.Lex.cons_iff]
    exact ih

theorem data_append3 (d a : String) :
    (d ++ "-" ++ a).data = d.data ++ ('-' :: a.data) := by
  rw [String.data_append, String.data_append, List.append_assoc]
  rfl

theorem id_lt_of_ts_lt {d1 a1 d2 a2 : String} (hlen : d1.length = d2.length)
    (h : d1 < d2) : d1 ++ "-" ++ a1 < d2 ++ "-" ++ a2 := by
  rw [String.lt_iff_toList_lt] at h ⊢
  have hdl : List.Lex (· < ·) d1.data d2.data := h
  have hl : d1.data.length = d2.data.length := by
    rw [String.length_data, String.length_data, hlen]
  show List.Lex (· < ·) (d1 ++ "-" ++ a1).data (d2 ++ "-" ++ a2).data
  rw [data_append3, data_append3]
  exact lex_append_of_length_eq hl hdl _ _

theorem id_le_of_artist_le {d a1 a2 : String} (h : a1 ≤ a2) :
    d ++ "-" ++ a1 ≤ d ++ "-" ++ a2 := by
  rw [← not_lt]
  intro hcon
  rw [String.lt_iff_toList_lt] at hcon
  have hcon' : List.Lex (· < ·) (d ++ "-" ++ a2).data (d ++ "-" ++ a1).data :=
    hcon
  rw [data_append3, data_append3,
    show d.data ++ ('-' :: a2.data) = (d.data ++ ['-']) ++ a2.data by simp,
    show d.data ++ ('-' :: a1.data) = (d.data ++ ['-']) ++ a1.data by simp]
    at hcon'
  have hlex : List.Lex (· < ·) a2.data a1.data := lex_append_left_iff.mp hcon'
  exact absurd (String.lt_iff_toList_lt.mpr hlex) (not_lt.mpr h)

theorem id_le_of_keyLE {k1 k2 : String × String}
    (hlen : k1.1.length = k2.1.length) (h : keyLE k1 k2) :
    k1.1 ++ "-" ++ k1.2 ≤ k2.1 ++ "-" ++ k2.2 := by
  rw [keyLE_iff] at h
  rcases h with hlt | ⟨heq, hle⟩
  · exact le_of_lt (id_lt_of_ts_lt hlen hlt)
  · rw [heq]
    exact id_le_of_artist_le hle

theorem keyOf_timestamp {e : RawEvent} {k : String × String}
    (h : keyOf e = some k) :
    e.timestamp = some k.1 ∧ e.artist_name = some k.2 := by
  rcases e with ⟨s, _ | a, p, _ | t⟩ <;> simp [keyOf] at h
  subst h
  exact ⟨rfl, rfl⟩

/-! ### C8: determinism and output order -/

/-- Timestamp `"a"`, artist `"z"`: group key `("a", "z")`. -/
def evTsA : RawEvent := ⟨some "s1", some "z", some "p1", some "a"⟩

/-- Timestamp `"a-"`, artist `"a"`: group key `("a-", "a")`. -/
def evTsADash : RawEvent := ⟨some "s2", some "a", some "p2", some "a-"⟩

/-- C8 counterexample: a validated batch whose aggregation output is *not*
in ascending order of `id`.  The groupby keys sort as
`("a", "z") < ("a-", "a")`, but the derived ids compare the other way:
`"a--a" < "a-z"`, because the separator `"-"` sorts below the date
characters.  (The failure needs variable-length dates; the real pipeline's
10-character dates avoid it, see the amended theorem.) -/
theorem transform_not_sorted_by_id :
    Data_Quality [evTsA, evTsADash] = QualityOutcome.valid ∧
      ¬ List.Sorted (· ≤ ·)
        ((Transform_df [evTsA, evTsADash]).map AggRecord.ID) := by
  refine ⟨by decide, ?_⟩
  intro hs
  have hmap : (Transform_df [evTsA, evTsADash]).map AggRecord.ID =
      ["a-z", "a--a"] := by decide
  rw [hmap] at hs
  have hle : ("a-z" : String) ≤ "a--a" :=
    (List.sorted_cons.mp hs).1 _ (List.mem_singleton.mpr rfl)
  have hb : strLeb "a-z" "a--a" = true := strLeb_iff.mpr hle
  exact absurd hb (by decide)

/-- C8 (amended).  Aggregation is a pure function of its input — re-running
`Transform_df` on the same validated batch yields the identical record list —
and whenever every timestamp of the batch has the fixed length 10 (as the
extractor guarantees by slicing `played_at[:10]`), the output is in ascending
order of `id`. -/
theorem transform_deterministic_sorted (events : List RawEvent)
    (_h : Data_Quality events = QualityOutcome.valid)
    (hlen : ∀ e ∈ events, Option.map String.length e.timestamp = some 10) :
    Transform_df events = Transform_df events ∧
      List.Sorted (· ≤ ·) ((Transform_df events).map AggRecord.ID) := by
  refine ⟨rfl, ?_⟩
  unfold Transform_df
  show List.Pairwise (· ≤ ·) _
  rw [List.map_map, List.pairwise_map]
  refine List.Pairwise.imp_of_mem ?_ (sorted_groupKeys events)
  intro k1 k2 h1 h2 hk
  obtain ⟨e1, he1, hke1⟩ := mem_groupKeys.mp h1
  obtain ⟨e2, he2, hke2⟩ := mem_groupKeys.mp h2
  have hlen1 : k1.1.length = 10 := by
    have := hlen e1 he1
    rw [(keyOf_timestamp hke1).1] at this
    simpa using this
  have hlen2 : k2.1.length = 10 := by
    have := hlen e2 he2
    rw [(keyOf_timestamp hke2).1] at this
    simpa using this
  exact id_le_of_keyLE (by rw [hlen1, hlen2]) hk

/-- C8 witness: the worked-example batch (all dates `"2024-01-01"`). -/
theorem transform_deterministic_sorted_witness :
    Transform_df exBatch = Transform_df exBatch ∧
      List.Sorted (· ≤ ·) ((Transform_df exBatch).map AggRecord.ID) :=
  transform_deterministic_sorted exBatch (by decide) (by decide)

/-! ### C9: the id determines the (date, artist) pair -/

/-- C9.  For records produced by `Transform_df` from batches whose dates are
the 10-character prefixes of ISO-8601 timestamps, equal `id` strings imply
equal `(date, artist_name)` pairs: `id = date ++ "-" ++ artist_name` is
injective on such keys. -/
theorem id_determines_pair {b1 b2 : List RawEvent} {r1 r2 : AggRecord}
    (h1 : r1 ∈ Transform_df b1) (h2 : r2 ∈ Transform_df b2)
    (hl1 : ∀ e ∈ b1, Option.map String.length e.timestamp = some 10)
    (hl2 : ∀ e ∈ b2, Option.map String.length e.timestamp = some 10)
    (hid : r1.ID = r2.ID) :
    r1.timestamp = r2.timestamp ∧ r1.artist_name = r2.artist_name := by
  simp only [Transform_df] at h1 h2
  obtain ⟨k1, hk1mem, hk1⟩ := List.mem_map.mp h1
  obtain ⟨k2, hk2mem, hk2⟩ := List.mem_map.mp h2
  have hID1 : r1.ID = k1.1 ++ "-" ++ k1.2 := by rw [← hk1]
  have hID2 : r2.ID = k2.1 ++ "-" ++ k2.2 := by rw [← hk2]
  have hts1 : r1.timestamp = k1.1 := by rw [← hk1]
  have hts2 : r2.timestamp = k2.1 := by rw [← hk2]
  have har1 : r1.artist_name = k1.2 := by rw [← hk1]
  have har2 : r2.artist_name = k2.2 := by rw [← hk2]
  obtain ⟨e1, he1, hke1⟩ := mem_groupKeys.mp hk1mem
  obtain ⟨e2, he2, hke2⟩ := mem_groupKeys.mp hk2mem
  have hlen1 : k1.1.length = 10 := by
    have := hl1 e1 he1
    rw [(keyOf_timestamp hke1).1] at this
    simpa using this
  have hlen2 : k2.1.length = 10 := by
    have := hl2 e2 he2
    rw [(keyOf_timestamp hke2).1] at this
    simpa using this
  rw [hID1, hID2] at hid
  have hdata := congrArg String.data hid
  rw [data_append3, data_append3] at hdata
  obtain ⟨hd, ht⟩ := List.append_inj hdata
    (by rw [String.length_data, String.length_data, hlen1, hlen2])
  have htail : k1.2.data = k2.2.data := by
    injection ht
  rw [hts1, hts2, har1, har2]
  exact ⟨String.toList_inj.mp hd, String.toList_inj.mp htail⟩

/-- C9 witness: the `"2024-01-01-A"` records of the worked-example batch and
of its singleton sub-batch share the id and indeed share the key pair. -/
theorem id_determines_pair_witness :
    (⟨"2024-01-01-A", "2024-01-01", "A", 2⟩ : AggRecord).timestamp =
        (⟨"2024-01-01-A", "2024-01-01", "A", 1⟩ : AggRecord).timestamp ∧
      (⟨"2024-01-01-A", "2024-01-01", "A", 2⟩ : AggRecord).artist_name =
        (⟨"2024-01-01-A", "2024-01-01", "A", 1⟩ : AggRecord).artist_name :=
  @id_determines_pair exBatch [evA1]
    ⟨"2024-01-01-A", "2024-01-01", "A", 2⟩
    ⟨"2024-01-01-A", "2024-01-01", "A", 1⟩
    (by decide) (by decide) (by decide) (by decide) rfl

end SpotifyPipeline
